import Mathlib

/-!
Shallow embedding of the libsql Node binding core (`src/lib.rs`) and proofs
of the specification claims about it.

The source is a Neon native module: host (JavaScript) values cross the
boundary as dynamic values, the engine (libsql) speaks a five-variant typed
value model.  We embed:

* the engine value model (`libsql::Value`) as `Value`;
* the host's dynamic values, restricted to the shapes the binding
  inspects, as `JSValue`;
* each native function as a pure Lean function; fallible native calls
  return `Except Err _`, where `Err` distinguishes Rust panics
  (`Option::unwrap` on `None`, `todo!`) from thrown JS errors;
* the external engine's responses (rows produced by an execution, the
  affected-row count) as explicit arguments of the embedded functions,
  since the engine itself is an external collaborator.
-/

namespace LibsqlNode

/-- Engine value model, from `libsql::Value`: tagged union
{Null, Integer(i64), Real(f64), Text, Blob}.  The `f64` payload of `Real`
is carried as an exact rational. -/
inductive Value where
  | null
  | integer (v : Int)
  | real (v : Rat)
  | text (s : String)
  | blob (b : List Nat)
deriving Repr, DecidableEq

/-- Host (JavaScript) dynamic values, restricted to the shapes that
`js_value_to_value` and `convert_params` dispatch on: `null`, `undefined`,
arrays, booleans, numbers, strings, BigInt (arbitrary precision),
`Uint8Array` byte sequences, `ArrayBuffer` results, and plain objects
(a JS object is embedded as its own-property association list). -/
inductive JSValue where
  | jsNull
  | undefined
  | boolean (b : Bool)
  | number (v : Rat)
  | string (s : String)
  | bigint (v : Int)
  | bytes (b : List Nat)
  | buffer (b : List Nat)
  | array (xs : List JSValue)
  | object (fields : List (String × JSValue))

/-- The host-visible error object built by `throw_libsql_error`:
`message`, symbolic `code` string, and the numeric `rawCode` property
(absent on the non-engine branch, which never sets it). -/
structure HostError where
  message : String
  code : String
  rawCode : Option Int
deriving Repr, DecidableEq

/-- Failure outcomes of the native functions.

* `panicked` — a Rust panic, e.g. `Option::unwrap` on `None` in
  `Database::get_conn`; surfaced by the runtime as a generic native
  failure, not as any host error object the binding constructs.
* `unimplemented` — the `todo!` panics in `js_value_to_value`
  ("not yet implemented: <what>").
* `bindingError` — the thrown conversion error when `JsBigInt::to_i64`
  is lossy (`or_throw`); the spec taxonomy calls this BindingError.
* `typeError` — `downcast_or_throw` failure in `convert_params`.
* `usageError` — the `cx.throw_error` in `Statement::js_raw`.
* `libsqlError` — an engine error routed through `throw_libsql_error`. -/
inductive Err where
  | panicked (msg : String)
  | unimplemented (what : String)
  | bindingError (msg : String)
  | typeError (msg : String)
  | usageError (msg : String)
  | libsqlError (e : HostError)
deriving Repr, DecidableEq

/-- `libsql::params::Params`: positional or named parameter bindings. -/
inductive Params where
  | positional (vs : List Value)
  | named (vs : List (String × Value))
deriving Repr, DecidableEq

/-- Signed 64-bit lower bound. -/
def i64Min : Int := -(2 ^ 63)

/-- Signed 64-bit upper bound (exclusive). -/
def i64UpperBound : Int := 2 ^ 63

/-- `js_value_to_value` from the source: the host→engine marshaler.
The dispatch order follows the source's `is_a` chain: JsNull, JsUndefined,
JsArray (`todo!("array")`), JsBoolean (`todo!("bool")`), JsNumber → Real,
JsString → Text, JsBigInt → Integer via `to_i64` (thrown error when the
value does not fit in a signed 64-bit integer), JsUint8Array → Blob, and
a final `todo!("unsupported type")` for everything else (plain objects,
ArrayBuffers, ...). -/
def js_value_to_value : JSValue → Except Err Value
  | .jsNull => .ok .null
  | .undefined => .ok .null
  | .array _ => .error (.unimplemented "array")
  | .boolean _ => .error (.unimplemented "bool")
  | .number v => .ok (.real v)
  | .string s => .ok (.text s)
  | .bigint v =>
      if i64Min ≤ v ∧ v < i64UpperBound then .ok (.integer v)
      else .error (.bindingError "number too large to fit in target type")
  | .bytes b => .ok (.blob b)
  | .buffer _ => .error (.unimplemented "unsupported type")
  | .object _ => .error (.unimplemented "unsupported type")

/-- JavaScript property access on a plain object (Neon `Object::get`):
a present key yields its value, a missing key yields `undefined`. -/
def jsGet (fields : List (String × JSValue)) (key : String) : JSValue :=
  match fields.find? (fun kv => kv.fst == key) with
  | some kv => kv.snd
  | none => .undefined

/-- `convert_params_array`: marshal each element of an ordered sequence in
order into a positional parameter list. -/
def convert_params_array (xs : List JSValue) : Except Err Params :=
  (xs.mapM js_value_to_value).map .positional

/-- `convert_params_object`: for each declared parameter name (with its
leading binding sigil, as reported by `parameter_name(1..=count)`), look
up the name with its first character stripped (`&name[1..]`) in the host
object and marshal the result.  `paramNames` is the statement's declared
parameter-name list in index order. -/
def convert_params_object (paramNames : List String)
    (fields : List (String × JSValue)) : Except Err Params :=
  (paramNames.mapM (fun name =>
    (js_value_to_value (jsGet fields (name.drop 1))).map (fun v => (name, v)))).map
    .named

/-- `convert_params`: an array binds positionally; anything else is
downcast to an object (a thrown type error when it is not one) and bound
by name. -/
def convert_params (paramNames : List String) (v : JSValue) : Except Err Params :=
  match v with
  | .array xs => convert_params_array xs
  | .object fields => convert_params_object paramNames fields
  | _ => .error (.typeError "failed to downcast value")

/-- The arms of the `match` in `convert_sqlite_code`, in source order:
each pair is one arm, a `libsql::ffi::SQLITE_*` status constant (the
standard SQLite numeric value of that constant) and the symbolic name the
arm returns. -/
def sqliteCodeNames : List (Int × String) :=
  [(0, "SQLITE_OK"), (1, "SQLITE_ERROR"), (2, "SQLITE_INTERNAL"),
   (3, "SQLITE_PERM"), (4, "SQLITE_ABORT"), (5, "SQLITE_BUSY"),
   (6, "SQLITE_LOCKED"), (7, "SQLITE_NOMEM"), (8, "SQLITE_READONLY"),
   (9, "SQLITE_INTERRUPT"), (10, "SQLITE_IOERR"), (11, "SQLITE_CORRUPT"),
   (12, "SQLITE_NOTFOUND"), (13, "SQLITE_FULL"), (14, "SQLITE_CANTOPEN"),
   (15, "SQLITE_PROTOCOL"), (16, "SQLITE_EMPTY"), (17, "SQLITE_SCHEMA"),
   (18, "SQLITE_TOOBIG"), (19, "SQLITE_CONSTRAINT"), (20, "SQLITE_MISMATCH"),
   (21, "SQLITE_MISUSE"), (22, "SQLITE_NOLFS"), (23, "SQLITE_AUTH"),
   (24, "SQLITE_FORMAT"), (25, "SQLITE_RANGE"), (26, "SQLITE_NOTADB"),
   (27, "SQLITE_NOTICE"), (28, "SQLITE_WARNING"), (100, "SQLITE_ROW"),
   (101, "SQLITE_DONE"),
   (266, "SQLITE_IOERR_READ"), (522, "SQLITE_IOERR_SHORT_READ"),
   (778, "SQLITE_IOERR_WRITE"), (1034, "SQLITE_IOERR_FSYNC"),
   (1290, "SQLITE_IOERR_DIR_FSYNC"), (1546, "SQLITE_IOERR_TRUNCATE"),
   (1802, "SQLITE_IOERR_FSTAT"), (2058, "SQLITE_IOERR_UNLOCK"),
   (2314, "SQLITE_IOERR_RDLOCK"), (2570, "SQLITE_IOERR_DELETE"),
   (2826, "SQLITE_IOERR_BLOCKED"), (3082, "SQLITE_IOERR_NOMEM"),
   (3338, "SQLITE_IOERR_ACCESS"), (3594, "SQLITE_IOERR_CHECKRESERVEDLOCK"),
   (3850, "SQLITE_IOERR_LOCK"), (4106, "SQLITE_IOERR_CLOSE"),
   (4362, "SQLITE_IOERR_DIR_CLOSE"), (4618, "SQLITE_IOERR_SHMOPEN"),
   (4874, "SQLITE_IOERR_SHMSIZE"), (5130, "SQLITE_IOERR_SHMLOCK"),
   (5386, "SQLITE_IOERR_SHMMAP"), (5642, "SQLITE_IOERR_SEEK"),
   (5898, "SQLITE_IOERR_DELETE_NOENT"), (6154, "SQLITE_IOERR_MMAP"),
   (6410, "SQLITE_IOERR_GETTEMPPATH"), (6666, "SQLITE_IOERR_CONVPATH"),
   (6922, "SQLITE_IOERR_VNODE"), (7178, "SQLITE_IOERR_AUTH"),
   (262, "SQLITE_LOCKED_SHAREDCACHE"), (261, "SQLITE_BUSY_RECOVERY"),
   (517, "SQLITE_BUSY_SNAPSHOT"), (270, "SQLITE_CANTOPEN_NOTEMPDIR"),
   (526, "SQLITE_CANTOPEN_ISDIR"), (782, "SQLITE_CANTOPEN_FULLPATH"),
   (1038, "SQLITE_CANTOPEN_CONVPATH"), (267, "SQLITE_CORRUPT_VTAB"),
   (264, "SQLITE_READONLY_RECOVERY"), (520, "SQLITE_READONLY_CANTLOCK"),
   (776, "SQLITE_READONLY_ROLLBACK"), (1032, "SQLITE_READONLY_DBMOVED"),
   (516, "SQLITE_ABORT_ROLLBACK"), (275, "SQLITE_CONSTRAINT_CHECK"),
   (531, "SQLITE_CONSTRAINT_COMMITHOOK"), (787, "SQLITE_CONSTRAINT_FOREIGNKEY"),
   (1043, "SQLITE_CONSTRAINT_FUNCTION"), (1299, "SQLITE_CONSTRAINT_NOTNULL"),
   (1555, "SQLITE_CONSTRAINT_PRIMARYKEY"), (1811, "SQLITE_CONSTRAINT_TRIGGER"),
   (2067, "SQLITE_CONSTRAINT_UNIQUE"), (2323, "SQLITE_CONSTRAINT_VTAB"),
   (2579, "SQLITE_CONSTRAINT_ROWID"), (283, "SQLITE_NOTICE_RECOVER_WAL"),
   (539, "SQLITE_NOTICE_RECOVER_ROLLBACK"), (284, "SQLITE_WARNING_AUTOINDEX"),
   (279, "SQLITE_AUTH_USER"), (256, "SQLITE_OK_LOAD_PERMANENTLY")]

/-- `convert_sqlite_code`: first matching arm wins (the arm constants are
pairwise distinct, so this is the source's `match`); the fall-through arm
synthesizes `"UNKNOWN_SQLITE_ERROR_" ++ code` (the source's
`format!("UNKNOWN_SQLITE_ERROR_{}", code)`). -/
def convert_sqlite_code (code : Int) : String :=
  match sqliteCodeNames.find? (fun p => p.fst == code) with
  | some p => p.snd
  | none => "UNKNOWN_SQLITE_ERROR_" ++ toString code

/-- The numeric codes recognized by `convert_sqlite_code`. -/
def recognizedCodes : List Int := sqliteCodeNames.map Prod.fst

/-- `throw_libsql_error`: a `SqliteFailure(code, err)` becomes a host
error with the failure's message, a numeric `rawCode` property and the
symbolic `code` property; every other `libsql::Error` variant becomes a
host error with its display message and an empty `code` (no `rawCode`
property is set on that branch). -/
def throw_libsql_error (code? : Option Int) (message : String) : HostError :=
  match code? with
  | some code =>
      { message := message
        code := convert_sqlite_code code
        rawCode := some code }
  | none =>
      { message := message, code := "", rawCode := none }

/-- Round the natural number `a` to the nearest multiple of `step`,
ties to the even multiple (the rounding used by IEEE-754
round-to-nearest-even within one binade). -/
def roundNatEven (a step : Nat) : Nat :=
  let q := a / step
  let r := a % step
  if 2 * r < step then q * step
  else if step < 2 * r then (q + 1) * step
  else if q % 2 = 0 then q * step else (q + 1) * step

/-- Floor of the base-2 logarithm, as a structural recursion on a fuel
bound so that it reduces inside the kernel; `fuel = 64` covers every
64-bit input. -/
def log2Fuel (fuel n : Nat) : Nat :=
  match fuel with
  | 0 => 0
  | f + 1 => if n ≥ 2 then log2Fuel f (n / 2) + 1 else 0

/-- The IEEE-754 binary64 value nearest to the natural number `a`
(round-to-nearest-even), for `a < 2 ^ 64`: values up to `2 ^ 53` are
exact; above that, the significand granularity in the binade of `a` is
`2 ^ (log2 a + 1 - 53)`. -/
def natToF64 (a : Nat) : Nat :=
  if a ≤ 2 ^ 53 then a
  else roundNatEven a (2 ^ (log2Fuel 64 a + 1 - 53))

/-- Rust's `v as f64` for a signed 64-bit `v`: round-to-nearest-even.
Every such result is an integer, returned exactly. -/
def i64ToF64 (v : Int) : Int :=
  Int.sign v * (natToF64 v.natAbs : Int)

/-- The engine→host conversion of one column value, shared by
`convert_row` and `convert_row_raw` in the source: Null → `null`;
Integer → a BigInt (`JsBigInt::from_i64`, exact) when the statement's
safe-integer toggle is set, else a number via `v as f64`; Real → number;
Text → string; Blob → an `ArrayBuffer` of the bytes. -/
def value_to_js (safe_ints : Bool) : Value → JSValue
  | .null => .jsNull
  | .integer v => if safe_ints then .bigint v else .number ((i64ToF64 v : Int) : Rat)
  | .real v => .number v
  | .text s => .string s
  | .blob b => .buffer b

/-- `convert_row`: build the named-field row object.  The source iterates
`idx` in `0..rows.column_count()`, setting property `rows.column_name(idx)`
to the conversion of `row.get_value(idx)`; here `colNames` is the column
names in index order and `row` the column values in index order, so the
loop is the zip of the two lists. -/
def convert_row (safe_ints : Bool) (colNames : List String) (row : List Value) :
    JSValue :=
  .object (colNames.zip (row.map (value_to_js safe_ints)))

/-- `convert_row_raw`: build the positional row array.  The source iterates
`idx` in `0..rows.column_count()`, setting element `idx` to the conversion
of `row.get_value(idx)`; with `row` the column values in index order the
loop is a map over `row`. -/
def convert_row_raw (safe_ints : Bool) (row : List Value) : JSValue :=
  .array (row.map (value_to_js safe_ints))

/-- The state of the shared `libsql::Connection` that the claims observe:
autocommit status (for `inTransaction`) and the last-insert rowid (read by
`run`).  In the source this object sits behind `Arc<Mutex<_>>`, shared by
the Database and every derived Statement. -/
structure Conn where
  is_autocommit : Bool
  last_insert_rowid : Int
deriving Repr, DecidableEq

/-- Execution phase of a prepared engine statement: `ready` after
`reset()` (it can be re-bound and re-executed), `executed` once
`execute()`/`query()` has run since the last reset. -/
inductive StmtPhase where
  | ready
  | executed
deriving Repr, DecidableEq

/-- The engine-side prepared statement (`libsql::Statement`) as the
binding observes it: declared parameter names in index order (each with
its binding sigil, as `parameter_name(1..=parameter_count())` reports
them), result column names in index order (`columns()`), and the
reset/executed phase. -/
structure EngineStmt where
  parameters : List String
  cols : List String
  phase : StmtPhase
deriving Repr, DecidableEq

/-- The binding's `Statement` handle: its own clone of the shared
connection, the engine statement, and the two per-statement toggles,
`raw` (initially false) and `safe_ints` (copied from the Database's
default at prepare time). -/
structure Statement where
  conn : Conn
  engine : EngineStmt
  raw : Bool
  safe_ints : Bool
deriving Repr, DecidableEq

/-- The binding's `Database` handle: `conn` is the
`RefCell<Option<Arc<Mutex<Connection>>>>` (set to `none` by `close`),
`default_safe_integers` the default copied into statements at prepare
time. -/
structure Database where
  conn : Option Conn
  default_safe_integers : Bool
deriving Repr, DecidableEq

/-- The binding's `Rows` cursor: the not-yet-delivered rows of one
execution, the column names of the executing query, and plain-`Bool`
copies of the owning statement's `raw` and `safe_ints` toggles taken at
cursor creation. -/
structure Rows where
  pending : List (List Value)
  cols : List String
  raw : Bool
  safe_ints : Bool
deriving Repr, DecidableEq

/-- The Rust panic message of `Option::unwrap` on `None`. -/
def unwrapNoneMsg : String := "called `Option::unwrap()` on a `None` value"

/-- `Database::get_conn`: `self.conn.borrow().as_ref().unwrap().clone()`.
After `close` the option is `None` and the `unwrap` panics; the panic is
modelled as the `panicked` error outcome. -/
def get_conn (db : Database) : Except Err Conn :=
  match db.conn with
  | some c => .ok c
  | none => .error (.panicked unwrapNoneMsg)

/-- `Database::js_close`: replaces the connection option with `None` and
nothing else; the source comment notes the connection itself stays alive
until the last statement holding a clone is discarded. -/
def js_close (db : Database) : Database := { db with conn := none }

/-- `Database::js_exec_sync`: fetches the connection via `get_conn` (a
panic after close), then runs `execute_batch`; `engineOutcome` is the
engine's response, an error being routed through `throw_libsql_error`. -/
def js_exec_sync (db : Database) (engineOutcome : Except HostError Unit) :
    Except Err Unit := do
  let _ ← get_conn db
  match engineOutcome with
  | .ok _ => pure ()
  | .error e => Except.error (.libsqlError e)

/-- `Database::js_in_transaction`: unwraps the connection option (the
same panic after close) and returns the negation of `is_autocommit`. -/
def js_in_transaction (db : Database) : Except Err Bool := do
  let c ← get_conn db
  pure (!c.is_autocommit)

/-- `Database::js_prepare_sync`: fetches the connection via `get_conn`,
asks the engine to compile the SQL (`compiled` is the engine's response;
an error is routed through `throw_libsql_error`), and wraps the result
with `raw := false` and `safe_ints` copied from
`*db.default_safe_integers.borrow()`. -/
def js_prepare_sync (db : Database) (compiled : Except HostError EngineStmt) :
    Except Err Statement := do
  let c ← get_conn db
  match compiled with
  | .error e => Except.error (.libsqlError e)
  | .ok eng =>
      pure { conn := c, engine := eng, raw := false,
             safe_ints := db.default_safe_integers }

/-- `Database::set_default_safe_integers`: replaces only the Database's
own default cell. -/
def set_default_safe_integers (db : Database) (toggle : Bool) : Database :=
  { db with default_safe_integers := toggle }

/-- `Statement::set_raw`. -/
def set_raw (stmt : Statement) (raw : Bool) : Statement :=
  { stmt with raw := raw }

/-- `Statement::set_safe_integers`. -/
def set_safe_integers (stmt : Statement) (toggle : Bool) : Statement :=
  { stmt with safe_ints := toggle }

/-- `libsql::Statement::reset`. -/
def reset (eng : EngineStmt) : EngineStmt := { eng with phase := .ready }

/-- `libsql::Statement::execute` / `query` (phase effect only). -/
def execute (eng : EngineStmt) : EngineStmt := { eng with phase := .executed }

/-- `Statement::js_raw`: when the compiled statement has no result
columns, throw the usage error; otherwise set the raw toggle to the
argument. -/
def js_raw (stmt : Statement) (toggle : Bool) : Except Err Statement :=
  if stmt.engine.cols.isEmpty then
    .error (.usageError "The raw() method is only for statements that return data")
  else
    .ok (set_raw stmt toggle)

/-- `Statement::js_columns`, reduced to the ordered column-name list (the
source additionally carries per-column origin/table/database/type
metadata, which no claim observes). -/
def js_columns (stmt : Statement) : List String := stmt.engine.cols

/-- `Statement::js_run`: bind the params, `reset()`, `execute()`
(`engineChanges` is the engine's affected-row count or error), then build
`{changes, lastInsertRowid}` — both set with `cx.number(_ as f64)` — with
the rowid read from the shared connection right after execution. -/
def js_run (stmt : Statement) (v : JSValue) (engineChanges : Except HostError Nat) :
    Except Err (JSValue × Statement) := do
  let _ ← convert_params stmt.engine.parameters v
  let eng := reset stmt.engine
  match engineChanges with
  | .error e => Except.error (.libsqlError e)
  | .ok changes =>
      pure (.object
              [("changes", .number ((i64ToF64 changes : Int) : Rat)),
               ("lastInsertRowid",
                .number ((i64ToF64 stmt.conn.last_insert_rowid : Int) : Rat))],
            { stmt with engine := execute eng })

/-- `Statement::js_get`: bind the params, `query()` (`produced` is the
engine's full row sequence for this execution, or its error), take the
first produced row — shaped by `convert_row_raw` or `convert_row`
according to the raw toggle — or `undefined` when there is none, then
`reset()` the statement. -/
def js_get (stmt : Statement) (v : JSValue)
    (produced : Except HostError (List (List Value))) :
    Except Err (JSValue × Statement) := do
  let _ ← convert_params stmt.engine.parameters v
  match produced with
  | .error e => Except.error (.libsqlError e)
  | .ok rowsList =>
      let result : JSValue :=
        match rowsList with
        | [] => .undefined
        | row :: _ =>
            if stmt.raw then convert_row_raw stmt.safe_ints row
            else convert_row stmt.safe_ints stmt.engine.cols row
      pure (result, { stmt with engine := reset (execute stmt.engine) })

/-- `Statement::js_rows_sync`: bind the params, `reset()`, `query()`
(`produced` is the engine's row sequence or error), and wrap the stream
in a `Rows` cursor that copies the statement's `raw` and `safe_ints`
toggles at this moment. -/
def js_rows_sync (stmt : Statement) (v : JSValue)
    (produced : Except HostError (List (List Value))) :
    Except Err (Rows × Statement) := do
  let _ ← convert_params stmt.engine.parameters v
  let eng := reset stmt.engine
  match produced with
  | .error e => Except.error (.libsqlError e)
  | .ok rowsList =>
      pure ({ pending := rowsList, cols := stmt.engine.cols,
              raw := stmt.raw, safe_ints := stmt.safe_ints },
            { stmt with engine := execute eng })

/-- `Rows::js_next`: deliver the next pending row — shaped by the
cursor's own captured `raw`/`safe_ints` fields — or `undefined` at the
end of the stream.  (An engine fetch failure, routed through
`throw_libsql_error` in the source, is not observed by any claim and is
not modelled.) -/
def js_next (r : Rows) : JSValue × Rows :=
  match r.pending with
  | [] => (.undefined, r)
  | row :: rest =>
      ((if r.raw then convert_row_raw r.safe_ints row
        else convert_row r.safe_ints r.cols row),
       { r with pending := rest })

/-- A concrete connection for witnesses. -/
def demoConn : Conn := { is_autocommit := true, last_insert_rowid := 0 }

/-- A concrete open database for witnesses. -/
def demoDb : Database := { conn := some demoConn, default_safe_integers := false }

/-- A concrete compiled statement (no parameters, one column) for
witnesses. -/
def demoEngine : EngineStmt := { parameters := [], cols := ["x"], phase := .ready }

/-- A concrete prepared statement handle for witnesses. -/
def demoStmt : Statement :=
  { conn := demoConn, engine := demoEngine, raw := false, safe_ints := false }

/-! ## Theorems -/

/-- C1 (counterexample): closing a Database does not make operations on a
previously derived Statement fail with a closed-resource error.  Concretely:
prepare a statement on an open database, close the database, then run the
database-level `exec` (it fails with the `Option::unwrap` panic, not any
ClosedError object) while `get` on the derived statement still succeeds,
returning a row. -/
theorem close_then_statement_op_succeeds :
    js_prepare_sync demoDb (.ok demoEngine) = .ok demoStmt ∧
    js_exec_sync (js_close demoDb) (.ok ()) = .error (.panicked unwrapNoneMsg) ∧
    js_get demoStmt (.array []) (.ok [[.integer 7]]) =
      .ok (.object [("x", .number ((7 : Int) : Rat))],
           { demoStmt with engine := reset (execute demoStmt.engine) }) :=
  ⟨rfl, rfl, rfl⟩

/-- C1 (amended): after `close()`, Database-level operations that fetch the
shared connection (`exec`, `prepare`, `inTransaction`) hit the
`Option::unwrap` on the now-`None` connection cell and panic — no
ClosedError object is ever constructed — while operations on a Statement
handle derived before the close keep succeeding, because the statement
owns its own clone of the connection reference and never consults the
Database (`js_get` here takes no Database argument, exactly as the source
function reads only statement state). -/
theorem close_semantics :
    ∀ (db : Database) (compiled : Except HostError EngineStmt)
      (engineOutcome : Except HostError Unit),
      js_exec_sync (js_close db) engineOutcome = .error (.panicked unwrapNoneMsg) ∧
      js_prepare_sync (js_close db) compiled = .error (.panicked unwrapNoneMsg) ∧
      js_in_transaction (js_close db) = .error (.panicked unwrapNoneMsg) ∧
      ∀ (stmt : Statement) (rowsList : List (List Value)),
        js_get stmt (.array []) (.ok rowsList) =
          .ok ((match rowsList with
                | [] => JSValue.undefined
                | row :: _ =>
                    if stmt.raw then convert_row_raw stmt.safe_ints row
                    else convert_row stmt.safe_ints stmt.engine.cols row),
               { stmt with engine := reset (execute stmt.engine) }) := by
  intro db compiled engineOutcome
  exact ⟨rfl, rfl, rfl, fun stmt rowsList => rfl⟩

/-- C2 (counterexample): binding an empty mapping to a statement with one
declared parameter `:a` succeeds, binding Null for the missing key — it
does not fail with BindingError. -/
theorem missing_key_no_binding_error :
    convert_params_object [":a"] [] = .ok (.named [(":a", Value.null)]) ∧
    ∀ e : Err, convert_params_object [":a"] [] ≠ .error e :=
  ⟨rfl, fun _ h => Except.noConfusion h⟩

/-- Helper for C2: when every stripped parameter name misses the mapping,
the per-name marshaling loop yields Null for each declared name. -/
theorem mapMNullOfMissing (fields : List (String × JSValue)) (l : List String)
    (h : ∀ name ∈ l, fields.find? (fun kv => kv.fst == name.drop 1) = none) :
    l.mapM (fun name =>
        (js_value_to_value (jsGet fields (name.drop 1))).map (fun v => (name, v))) =
      .ok (l.map (fun name => (name, Value.null))) := by
  induction l with
  | nil => rfl
  | cons name rest ih =>
      have hhead : jsGet fields (name.drop 1) = .undefined := by
        unfold jsGet
        rw [h name (List.mem_cons_self _ _)]
      rw [List.mapM_cons, hhead,
        ih (fun n hn => h n (List.mem_cons_of_mem _ hn))]
      rfl

/-- C2 (amended): binding a keyed mapping looks up each declared parameter
name with its binding-sigil prefix stripped (`&name[1..]`); a declared
name missing from the mapping reads as JS `undefined`, which marshals to
Null — the call succeeds with Null bound for every missing name instead of
failing with BindingError. -/
theorem named_binding_missing_key_binds_null :
    ∀ (paramNames : List String) (fields : List (String × JSValue)),
      (∀ name ∈ paramNames,
        fields.find? (fun kv => kv.fst == name.drop 1) = none) →
      convert_params_object paramNames fields =
        .ok (.named (paramNames.map (fun name => (name, Value.null)))) := by
  intro paramNames fields h
  unfold convert_params_object
  rw [mapMNullOfMissing fields paramNames h]
  rfl

/-- C2 witness: two declared names `:a` and `@b`, empty mapping — both
bind Null and the call succeeds. -/
theorem named_binding_missing_key_binds_null_witness :
    convert_params_object [":a", "@b"] [] =
      .ok (.named [(":a", Value.null), ("@b", Value.null)]) :=
  named_binding_missing_key_binds_null [":a", "@b"] [] (fun _ _ => rfl)

/-- C3: boolean and composite (array / plain-object) host values make the
marshaler fail with the unimplemented-type outcome (the `todo!` panics,
surfaced to the host by the runtime's panic handling); none of them is
ever coerced to an engine value. -/
theorem unsupported_value_types_fail :
    (∀ b : Bool, js_value_to_value (.boolean b) = .error (.unimplemented "bool")) ∧
    (∀ xs : List JSValue,
      js_value_to_value (.array xs) = .error (.unimplemented "array")) ∧
    (∀ fields : List (String × JSValue),
      js_value_to_value (.object fields) = .error (.unimplemented "unsupported type")) ∧
    (∀ (b : Bool) (w : Value), js_value_to_value (.boolean b) ≠ .ok w) ∧
    (∀ (xs : List JSValue) (w : Value), js_value_to_value (.array xs) ≠ .ok w) ∧
    (∀ (fields : List (String × JSValue)) (w : Value),
      js_value_to_value (.object fields) ≠ .ok w) :=
  ⟨fun _ => rfl, fun _ => rfl, fun _ => rfl,
   fun _ _ h => Except.noConfusion h, fun _ _ h => Except.noConfusion h,
   fun _ _ h => Except.noConfusion h⟩

/-- C4: with the safe-integer toggle set, every Integer column value is
returned as an exact BigInt — in particular 9007199254740993 = 2^53 + 1
round-trips exactly — while with the toggle clear the same value goes
through the `as f64` cast and comes back as the double 9007199254740992
(2^53, the round-to-nearest-even result, one of the two admissible
roundings), which is no longer the original integer. -/
theorem safe_integer_precision :
    (∀ v : Int, value_to_js true (.integer v) = .bigint v) ∧
    convert_row true ["c"] [.integer 9007199254740993] =
      .object [("c", .bigint 9007199254740993)] ∧
    convert_row_raw true [.integer 9007199254740993] =
      .array [.bigint 9007199254740993] ∧
    convert_row false ["c"] [.integer 9007199254740993] =
      .object [("c", .number ((9007199254740992 : Int) : Rat))] ∧
    convert_row_raw false [.integer 9007199254740993] =
      .array [.number ((9007199254740992 : Int) : Rat)] ∧
    ((9007199254740992 : Int) : Rat) ≠ ((9007199254740993 : Int) : Rat) ∧
    (i64ToF64 9007199254740993 = 9007199254740992 ∨
      i64ToF64 9007199254740993 = 9007199254740994) := by
  exact ⟨fun v => rfl, rfl, rfl, rfl, rfl, by decide, Or.inl (by decide)⟩

/-- C5 (counterexample): the symbol synthesized for an unrecognized
status code is `UNKNOWN_SQLITE_ERROR_<code>`, not the spec's literal
`UNKNOWN_<code>`. -/
theorem unknown_code_symbol_shape :
    convert_sqlite_code 9999 = "UNKNOWN_SQLITE_ERROR_9999" ∧
    convert_sqlite_code 9999 ≠ "UNKNOWN_9999" := by
  exact ⟨rfl, by decide⟩

/-- Helper for C5: a code outside the arm constants falls through the
first-match lookup. -/
theorem findPairNoneOfNotMem (code : Int)
    (h : code ∉ sqliteCodeNames.map Prod.fst) :
    sqliteCodeNames.find? (fun p => p.fst == code) = none := by
  apply List.find?_eq_none.mpr
  intro p hp
  simp only [beq_iff_eq]
  intro he
  exact h (he ▸ List.mem_map_of_mem Prod.fst hp)

/-- C5 (amended): an engine failure carrying a numeric status code is
translated to `{message, rawCode, code}` with `code` the symbolic name of
the status; a numeric code outside the recognized set degrades to the
synthesized `UNKNOWN_SQLITE_ERROR_<code>` string rather than failing
translation; and a non-engine failure surfaces with an empty symbolic
code and its plain message (and no `rawCode`). -/
theorem error_translator_shape :
    (∀ (code : Int) (msg : String),
      throw_libsql_error (some code) msg =
        { message := msg, code := convert_sqlite_code code, rawCode := some code }) ∧
    (∀ (code : Int) (msg : String), code ∉ recognizedCodes →
      (throw_libsql_error (some code) msg).code =
        "UNKNOWN_SQLITE_ERROR_" ++ toString code) ∧
    (∀ msg : String,
      throw_libsql_error none msg = { message := msg, code := "", rawCode := none }) := by
  refine ⟨fun _ _ => rfl, ?_, fun _ => rfl⟩
  intro code msg h
  show convert_sqlite_code code = _
  unfold convert_sqlite_code
  rw [findPairNoneOfNotMem code h]

/-- C5 witness: the unrecognized code 9998 synthesizes its
`UNKNOWN_SQLITE_ERROR_9998` symbol. -/
theorem error_translator_shape_witness :
    (throw_libsql_error (some 9998) "boom").code =
      "UNKNOWN_SQLITE_ERROR_" ++ toString (9998 : Int) :=
  error_translator_shape.2.1 9998 "boom" (by decide)

/-- C6: host→engine marshaling maps null and undefined to Null, numbers
to Real, strings to Text, BigInt values to Integer exactly when they fit
in a signed 64-bit integer and to the BindingError outcome otherwise, and
Uint8Array byte sequences to Blob. -/
theorem marshal_host_to_engine :
    js_value_to_value .jsNull = .ok .null ∧
    js_value_to_value .undefined = .ok .null ∧
    (∀ q : Rat, js_value_to_value (.number q) = .ok (.real q)) ∧
    (∀ s : String, js_value_to_value (.string s) = .ok (.text s)) ∧
    (∀ v : Int, i64Min ≤ v → v < i64UpperBound →
      js_value_to_value (.bigint v) = .ok (.integer v)) ∧
    (∀ v : Int, v < i64Min ∨ i64UpperBound ≤ v →
      js_value_to_value (.bigint v) =
        .error (.bindingError "number too large to fit in target type")) ∧
    (∀ b : List Nat, js_value_to_value (.bytes b) = .ok (.blob b)) := by
  refine ⟨rfl, rfl, fun _ => rfl, fun _ => rfl, ?_, ?_, fun _ => rfl⟩
  · intro v h1 h2
    show (if i64Min ≤ v ∧ v < i64UpperBound then
            Except.ok (Value.integer v)
          else
            Except.error (Err.bindingError "number too large to fit in target type")) = _
    rw [if_pos ⟨h1, h2⟩]
  · intro v h
    have hno : ¬(i64Min ≤ v ∧ v < i64UpperBound) := by
      rcases h with h | h
      · exact fun hc => absurd hc.1 (not_le.mpr h)
      · exact fun hc => absurd hc.2 (not_lt.mpr h)
    show (if i64Min ≤ v ∧ v < i64UpperBound then
            Except.ok (Value.integer v)
          else
            Except.error (Err.bindingError "number too large to fit in target type")) = _
    rw [if_neg hno]

/-- C6 witness: 5 fits in a signed 64-bit integer and binds as Integer;
2^63 does not fit and fails with the BindingError outcome. -/
theorem marshal_host_to_engine_witness :
    js_value_to_value (.bigint 5) = .ok (.integer 5) ∧
    js_value_to_value (.bigint (2 ^ 63)) =
      .error (.bindingError "number too large to fit in target type") :=
  ⟨marshal_host_to_engine.2.2.2.2.1 5 (by decide) (by decide),
   marshal_host_to_engine.2.2.2.2.2.1 (2 ^ 63) (Or.inr (by decide))⟩

/-- C7: preparing a statement copies the Database's safe-integer default
at that moment (and starts with `raw := false`); a later
`defaultSafeIntegers` call changes only the Database's default cell — the
already-prepared statement record mentions only the default that was
current at prepare time — while statements prepared after the change pick
up the new default; the per-statement toggles change only through the
statement's own `set_safe_integers` / `set_raw`. -/
theorem prepare_captures_safe_integer_default :
    ∀ (c : Conn) (d t : Bool) (eng : EngineStmt),
      js_prepare_sync { conn := some c, default_safe_integers := d } (.ok eng) =
        .ok { conn := c, engine := eng, raw := false, safe_ints := d } ∧
      set_default_safe_integers { conn := some c, default_safe_integers := d } t =
        { conn := some c, default_safe_integers := t } ∧
      js_prepare_sync
          (set_default_safe_integers { conn := some c, default_safe_integers := d } t)
          (.ok eng) =
        .ok { conn := c, engine := eng, raw := false, safe_ints := t } ∧
      set_safe_integers { conn := c, engine := eng, raw := false, safe_ints := d } t =
        { conn := c, engine := eng, raw := false, safe_ints := t } ∧
      set_raw { conn := c, engine := eng, raw := false, safe_ints := d } t =
        { conn := c, engine := eng, raw := t, safe_ints := d } :=
  fun _ _ _ _ => ⟨rfl, rfl, rfl, rfl, rfl⟩

/-- C8: when the parameters bind, `get` returns exactly the first row the
execution produces — shaped positionally or by name according to the raw
toggle — or the `undefined` sentinel (not an error) when the execution
produces no rows; rows past the first never influence the result; and the
statement comes back in the reset phase, ready for re-execution. -/
theorem get_returns_first_row :
    ∀ (stmt : Statement) (v : JSValue) (p : Params)
      (rowsList : List (List Value)),
      convert_params stmt.engine.parameters v = .ok p →
      (js_get stmt v (.ok rowsList) =
        .ok ((match rowsList with
              | [] => JSValue.undefined
              | row :: _ =>
                  if stmt.raw then convert_row_raw stmt.safe_ints row
                  else convert_row stmt.safe_ints stmt.engine.cols row),
             { stmt with engine := reset (execute stmt.engine) })) ∧
      (∀ (row : List Value) (rest₁ rest₂ : List (List Value)),
        js_get stmt v (.ok (row :: rest₁)) = js_get stmt v (.ok (row :: rest₂))) ∧
      (reset (execute stmt.engine)).phase = .ready := by
  intro stmt v p rowsList h
  refine ⟨?_, ?_, rfl⟩
  · unfold js_get
    rw [h]
    rfl
  · intro row rest₁ rest₂
    unfold js_get
    rw [h]

/-- C8 witness: a zero-row execution yields the `undefined` sentinel and
a reset statement. -/
theorem get_returns_first_row_witness :
    js_get demoStmt (.array []) (.ok []) =
      .ok (.undefined, { demoStmt with engine := reset (execute demoStmt.engine) }) :=
  (get_returns_first_row demoStmt (.array []) (.positional []) [] rfl).1

/-- C9: `raw(toggle)` on a statement without output columns fails with
the usage error; with output columns it succeeds, setting the raw toggle;
and raw row output is the positionally-ordered sequence whose entry `i`
is the converted value of column `i` of `columns()` order. -/
theorem raw_mode_requires_columns :
    ∀ (stmt : Statement) (t : Bool),
      (stmt.engine.cols = [] →
        js_raw stmt t =
          .error (.usageError "The raw() method is only for statements that return data")) ∧
      (stmt.engine.cols ≠ [] →
        js_raw stmt t = .ok (set_raw stmt t) ∧ (set_raw stmt t).raw = t) ∧
      (∀ (s : Bool) (row : List Value),
        row.length = (js_columns stmt).length →
        ∃ xs, convert_row_raw s row = .array xs ∧
          xs.length = (js_columns stmt).length ∧
          ∀ i : Nat, xs.get? i = (row.get? i).map (value_to_js s)) := by
  intro stmt t
  refine ⟨?_, ?_, ?_⟩
  · intro h
    unfold js_raw
    rw [h]
    rfl
  · intro h
    have hne : stmt.engine.cols.isEmpty = false := by
      cases hc : stmt.engine.cols with
      | nil => exact absurd hc h
      | cons a l => rfl
    refine ⟨?_, rfl⟩
    unfold js_raw
    rw [hne]
    rfl
  · intro s row hlen
    refine ⟨row.map (value_to_js s), rfl, ?_, ?_⟩
    · rw [List.length_map]
      exact hlen
    · intro i
      exact List.get?_map (value_to_js s) row i

/-- C9 witness: `raw(true)` succeeds on a one-column statement and fails
with the usage error on a columnless one; a one-value row converts to the
matching one-entry positional sequence. -/
theorem raw_mode_requires_columns_witness :
    js_raw demoStmt true = .ok (set_raw demoStmt true) ∧
    js_raw { demoStmt with engine := { demoEngine with cols := [] } } true =
      .error (.usageError "The raw() method is only for statements that return data") ∧
    ∃ xs, convert_row_raw false [Value.integer 1] = .array xs ∧
      xs.length = (js_columns demoStmt).length ∧
      ∀ i : Nat, xs.get? i = ([Value.integer 1].get? i).map (value_to_js false) :=
  ⟨((raw_mode_requires_columns demoStmt true).2.1 (by decide)).1,
   (raw_mode_requires_columns
      { demoStmt with engine := { demoEngine with cols := [] } } true).1 rfl,
   (raw_mode_requires_columns demoStmt true).2.2 false [Value.integer 1] (by decide)⟩

/-- C10: a Rows cursor copies the owning statement's raw and safe-integer
toggles into its own plain fields at creation: the cursor created from
`stmt` carries `stmt`'s current toggles, a cursor created after a
`set_raw` / `set_safe_integers` carries the updated ones, and `next`
consumes only the cursor's own captured fields (it takes no Statement at
all, exactly as the source reads `rows.raw` / `rows.safe_ints`), so no
later statement mutation can change an existing cursor's row shape or
integer representation. -/
theorem rows_capture_toggles_at_creation :
    ∀ (stmt : Statement) (v : JSValue) (p : Params)
      (rowsList : List (List Value)) (t : Bool),
      convert_params stmt.engine.parameters v = .ok p →
      (js_rows_sync stmt v (.ok rowsList) =
        .ok ({ pending := rowsList, cols := stmt.engine.cols,
               raw := stmt.raw, safe_ints := stmt.safe_ints },
             { stmt with engine := execute (reset stmt.engine) })) ∧
      (js_rows_sync (set_raw stmt t) v (.ok rowsList) =
        .ok ({ pending := rowsList, cols := stmt.engine.cols,
               raw := t, safe_ints := stmt.safe_ints },
             { set_raw stmt t with engine := execute (reset stmt.engine) })) ∧
      (js_rows_sync (set_safe_integers stmt t) v (.ok rowsList) =
        .ok ({ pending := rowsList, cols := stmt.engine.cols,
               raw := stmt.raw, safe_ints := t },
             { set_safe_integers stmt t with engine := execute (reset stmt.engine) })) ∧
      (∀ r : Rows,
        js_next r =
          (match r.pending with
           | [] => (JSValue.undefined, r)
           | row :: rest =>
               ((if r.raw then convert_row_raw r.safe_ints row
                 else convert_row r.safe_ints r.cols row),
                { r with pending := rest }))) := by
  intro stmt v p rowsList t h
  have h₁ : convert_params (set_raw stmt t).engine.parameters v = .ok p := h
  have h₂ : convert_params (set_safe_integers stmt t).engine.parameters v = .ok p := h
  refine ⟨?_, ?_, ?_, fun r => rfl⟩
  · unfold js_rows_sync
    rw [h]
    rfl
  · unfold js_rows_sync
    rw [h₁]
    rfl
  · unfold js_rows_sync
    rw [h₂]
    rfl

/-- C10 witness: a concrete cursor created from `demoStmt` captures its
(false, false) toggles. -/
theorem rows_capture_toggles_at_creation_witness :
    js_rows_sync demoStmt (.array []) (.ok [[.integer 2]]) =
      .ok ({ pending := [[.integer 2]], cols := ["x"],
             raw := false, safe_ints := false },
           { demoStmt with engine := execute (reset demoStmt.engine) }) :=
  (rows_capture_toggles_at_creation demoStmt (.array []) (.positional [])
    [[.integer 2]] true rfl).1

end LibsqlNode
